import Mathlib

/-!
Verification of the retail-rag-web-app evaluation harness.

This file shallowly embeds, in Lean 4, the parts of the repository that the
IR-metric, relevance-scoring, checkpoint/resume, finalization and token-refresh
claims are about, and proves (or refutes) each claim against the embedding.

Conventions:
* Python `float` arithmetic on small counters and ratios is modelled with `ℚ`.
* Python exceptions cannot occur in the modelled fragments (every modelled
  branch of the source either returns a value or is wrapped in
  `try/except: return <default>`), so the embeddings are total functions.
* Regex-driven extraction helpers (`_extract_product_names_from_question`,
  `_extract_price_ranges_from_question`) are not re-implemented; the callers
  take their output as an explicit argument, so every theorem quantifies over
  all possible extraction results.
-/

namespace RetailEval

/-! ## IR metrics (src/search_evaluator.py) -/

/-- Per-query body of `SearchEvaluator.calculate_precision_at_k`
(src/search_evaluator.py lines 210-236):
`relevance_scores = r[:k]`, `relevant_count = #{s in r[:k] : s >= 2}`,
`precision = relevant_count / min(k, len(relevance_scores))` when `r[:k]` is
non-empty, else `0.0`. -/
def pyPrecisionAtK (r : List ℕ) (k : ℕ) : ℚ :=
  let top := r.take k
  if top.isEmpty then 0
  else ((top.countP (fun s => decide (2 ≤ s)) : ℕ) : ℚ) / ((min k top.length : ℕ) : ℚ)

/-- Per-query body of `SearchEvaluator.calculate_recall_at_k`
(src/search_evaluator.py lines 238-266):
`highly_relevant_found = #{s in r[:k] : s >= 3}`,
`recall = min(1.0, highly_relevant_found)`. -/
def pyRecallAtK (r : List ℕ) (k : ℕ) : ℚ :=
  min 1 (((r.take k).countP (fun s => decide (3 ≤ s)) : ℕ) : ℚ)

/-- Modelled from the spec: `Recall@K = |{i ≤ min(K,n) : r[i] ≥ 2}| /
max(1, |{i ≤ n : r[i] ≥ 2}|)` (spec §4.6).  Used only to compare the spec's
formula with the source implementation `pyRecallAtK`. -/
def specRecallAtK (r : List ℕ) (k : ℕ) : ℚ :=
  (((r.take k).countP (fun s => decide (2 ≤ s)) : ℕ) : ℚ) /
    ((max 1 (r.countP (fun s => decide (2 ≤ s))) : ℕ) : ℚ)

/-- Python's stable `sorted(xs, reverse=True)` on the label list:
descending insertion sort. -/
def insertDesc (x : ℕ) : List ℕ → List ℕ
  | [] => [x]
  | y :: ys => if y ≤ x then x :: y :: ys else y :: insertDesc x ys

/-- Descending sort, modelling `sorted(relevance_scores, reverse=True)`. -/
def sortDesc : List ℕ → List ℕ
  | [] => []
  | x :: xs => insertDesc x (sortDesc xs)

/-- Computes `Σ_j r[j] * w (i+j)`: the DCG accumulation loop of
`SearchEvaluator.calculate_ndcg`, with the positional discount abstracted as a
weight sequence `w` (the source uses `w i = 1 / log2(i + 2)`, a strictly
positive transcendental sequence; every theorem below holds for an arbitrary
positive weight sequence). -/
def dcgFrom (w : ℕ → ℚ) : ℕ → List ℕ → ℚ
  | _, [] => 0
  | i, x :: xs => (x : ℚ) * w i + dcgFrom w (i + 1) xs

/-- Per-query body of `SearchEvaluator.calculate_ndcg`
(src/search_evaluator.py lines 328-366): truncate to `k`, DCG over the
truncation, IDCG over its descending sort, `ndcg = dcg / idcg if idcg > 0
else 0.0`. -/
def pyNDCG (w : ℕ → ℚ) (r : List ℕ) (k : ℕ) : ℚ :=
  if 0 < dcgFrom w 0 (sortDesc (r.take k)) then
    dcgFrom w 0 (r.take k) / dcgFrom w 0 (sortDesc (r.take k))
  else 0

/-- A concrete positive weight sequence used for closed evaluations of
`pyNDCG` (stands in for `1 / log2(i + 2)`). -/
def exampleWeights (i : ℕ) : ℚ := 1 / ((i : ℚ) + 2)

/-- Counting a predicate over `r.take k` is counting the index positions
`i < min k r.length` whose entry satisfies it. -/
lemma countP_take_eq_range (r : List ℕ) (k : ℕ) (p : ℕ → Bool) :
    (r.take k).countP p =
      (List.range (min k r.length)).countP (fun i => p (r.getD i 0)) := by
  induction r generalizing k with
  | nil => simp
  | cons x xs ih =>
    cases k with
    | zero => simp
    | succ m =>
      have hmin : min (m + 1) (xs.length + 1) = min m xs.length + 1 := by
        omega
      simp only [List.take_succ_cons, List.countP_cons, List.length_cons, hmin,
        List.range_succ_eq_map, List.countP_map]
      rw [ih m]
      simp [Function.comp_def, Nat.add_comm]

lemma take_isEmpty_iff (r : List ℕ) (k : ℕ) (hk : 1 ≤ k) :
    (r.take k).isEmpty = true ↔ r = [] := by
  cases r with
  | nil => simp
  | cons x xs =>
    cases k with
    | zero => omega
    | succ m => simp

/-- C3: for every judgment sequence `r` and cutoff `K ≥ 1`, the per-query
Precision@K of `SearchEvaluator.calculate_precision_at_k` equals the number of
positions `i < min(K,n)` with `r[i] ≥ 2` divided by `min(K,n)` when `n ≥ 1`,
and equals `0` for an empty candidate list; the dividing branch's denominator
is provably nonzero, so no division-by-zero fault can occur. -/
theorem C3_precision_at_k (r : List ℕ) (k : ℕ) (hk : 1 ≤ k) :
    (pyPrecisionAtK r k =
      if r = [] then 0
      else ((List.range (min k r.length)).countP
              (fun i => decide (2 ≤ r.getD i 0)) : ℚ) /
            ((min k r.length : ℕ) : ℚ)) ∧
    (r ≠ [] → ((min k r.length : ℕ) : ℚ) ≠ 0) := by
  constructor
  · by_cases hr : r = []
    · subst hr; simp [pyPrecisionAtK]
    · have hne : (r.take k).isEmpty = false := by
        rcases h : (r.take k).isEmpty with _ | _
        · rfl
        · exact absurd ((take_isEmpty_iff r k hk).mp h) hr
      simp only [pyPrecisionAtK, hne, if_neg hr, Bool.false_eq_true, if_false]
      rw [countP_take_eq_range, List.length_take]
      congr 2
      omega
  · intro hr
    have h1 : 1 ≤ r.length := by
      cases r with
      | nil => exact absurd rfl hr
      | cons a l => simp
    have hm : (1 : ℕ) ≤ min k r.length := le_min hk h1
    have hq : (0 : ℚ) < ((min k r.length : ℕ) : ℚ) := by exact_mod_cast hm
    exact hq.ne'

/-- Witness for `C3_precision_at_k` at the concrete input `r = [2,0,3]`,
`K = 2`: precision is `1/2`. -/
theorem C3_precision_witness : pyPrecisionAtK [2, 0, 3] 2 = 1 / 2 := by
  have h := (C3_precision_at_k [2, 0, 3] 2 (by norm_num)).1
  have hc : (List.range (min 2 ([2, 0, 3] : List ℕ).length)).countP
      (fun i => decide (2 ≤ ([2, 0, 3] : List ℕ).getD i 0)) = 1 := rfl
  rw [h, if_neg (by simp), hc]
  norm_num

/-- C1 (counterexample): on the judgment sequence `r = [2]` with `K = 1`, the
per-query recall computed by `SearchEvaluator.calculate_recall_at_k` is `0`
(it counts labels `≥ 3` and caps at one), while the spec's formula
`|{i ≤ min(K,n): r[i] ≥ 2}| / max(1, |{i ≤ n: r[i] ≥ 2}|)` gives `1`. -/
theorem C1_counterexample :
    pyRecallAtK [2] 1 = 0 ∧ specRecallAtK [2] 1 = 1 ∧
      pyRecallAtK [2] 1 ≠ specRecallAtK [2] 1 := by
  have h0 : pyRecallAtK [2] 1 = 0 := by
    have hc : (([2] : List ℕ).take 1).countP (fun s => decide (3 ≤ s)) = 0 := rfl
    unfold pyRecallAtK
    rw [hc]
    norm_num
  have h1 : specRecallAtK [2] 1 = 1 := by
    have hc : (([2] : List ℕ).take 1).countP (fun s => decide (2 ≤ s)) = 1 := rfl
    have hd : ([2] : List ℕ).countP (fun s => decide (2 ≤ s)) = 1 := rfl
    unfold specRecallAtK
    rw [hc, hd]
    norm_num
  exact ⟨h0, h1, by rw [h0, h1]; norm_num⟩

/-- C1 (amended): the per-query recall actually computed by
`SearchEvaluator.calculate_recall_at_k` is `min(1, |{i < min(K,n) : r[i] ≥ 3}|)`
— relevance threshold 3, capped at one, independent of the total number of
relevant items; in particular it is `0` (not `1`) on an empty candidate list,
and queries with empty judgment lists are skipped by the aggregation loop. -/
theorem C1_recall_code (r : List ℕ) (k : ℕ) :
    pyRecallAtK r k =
      min 1 (((List.range (min k r.length)).countP
        (fun i => decide (3 ≤ r.getD i 0)) : ℕ) : ℚ) := by
  unfold pyRecallAtK
  rw [countP_take_eq_range]

/-- Inserting the constant into a constant list keeps it constant. -/
lemma insertDesc_replicate (c n : ℕ) :
    insertDesc c (List.replicate n c) = List.replicate (n + 1) c := by
  cases n with
  | zero => rfl
  | succ m => simp [insertDesc, List.replicate_succ]

/-- Descending sort fixes constant lists. -/
lemma sortDesc_replicate (c n : ℕ) :
    sortDesc (List.replicate n c) = List.replicate n c := by
  induction n with
  | zero => rfl
  | succ m ih => simp [List.replicate_succ, sortDesc, ih, insertDesc_replicate]

/-- DCG of a constant list is the label times the summed weights. -/
lemma dcgFrom_replicate (w : ℕ → ℚ) (c : ℕ) (n i : ℕ) :
    dcgFrom w i (List.replicate n c) =
      (c : ℚ) * ∑ j ∈ Finset.range n, w (i + j) := by
  induction n generalizing i with
  | zero => simp [dcgFrom]
  | succ m ih =>
    rw [List.replicate_succ]
    simp only [dcgFrom, ih (i + 1), Finset.sum_range_succ']
    have hs : ∑ j ∈ Finset.range m, w (i + 1 + j)
        = ∑ j ∈ Finset.range m, w (i + (j + 1)) :=
      Finset.sum_congr rfl (fun j _ => by
        have hj : i + 1 + j = i + (j + 1) := by omega
        rw [hj])
    rw [hs, Nat.add_zero]
    ring

/-- C4 (counterexample): for the non-empty all-equal judgment sequence
`r = [0, 0]` and cutoff `K = 2 ≤ n`, the computed NDCG@K is `0`, not `1.0`:
when every label is `0` the ideal DCG is `0` and the code's
`idcg > 0` guard returns `0`. -/
theorem C4_counterexample :
    pyNDCG exampleWeights [0, 0] 2 = 0 ∧ pyNDCG exampleWeights [0, 0] 2 ≠ 1 := by
  have h0 : pyNDCG exampleWeights [0, 0] 2 = 0 := by
    unfold pyNDCG
    norm_num [sortDesc, insertDesc, dcgFrom]
  exact ⟨h0, by rw [h0]; norm_num⟩

/-- C4 (amended): for every non-empty judgment sequence whose labels all equal
a common value `c ≥ 1`, every cutoff `K ≥ 1` and every positive discount-weight
sequence, the computed NDCG@K equals `1`, because the descending sort fixes the
(constant) truncated list, so DCG@K = IDCG@K > 0. -/
theorem C4_ndcg_const (w : ℕ → ℚ) (r : List ℕ) (c k : ℕ)
    (hall : ∀ x ∈ r, x = c) (hc : 1 ≤ c) (hk : 1 ≤ k) (hr : r ≠ [])
    (hw : ∀ i, 0 < w i) : pyNDCG w r k = 1 := by
  have htake : ∀ x ∈ r.take k, x = c := fun x hx => hall x (List.mem_of_mem_take hx)
  have hrep : r.take k = List.replicate (r.take k).length c :=
    List.eq_replicate_of_mem htake
  have hlen : 1 ≤ (r.take k).length := by
    rw [List.length_take]
    have : 1 ≤ r.length := by
      cases r with
      | nil => exact absurd rfl hr
      | cons a l => simp
    omega
  unfold pyNDCG
  rw [hrep, sortDesc_replicate, dcgFrom_replicate]
  have hpos : 0 < (c : ℚ) * ∑ j ∈ Finset.range (r.take k).length, w (0 + j) := by
    apply mul_pos
    · exact_mod_cast hc
    · apply Finset.sum_pos
      · intro j _
        exact hw _
      · exact Finset.nonempty_range_iff.mpr (by omega)
  rw [if_pos hpos]
  exact div_self hpos.ne'

/-- Witness for `C4_ndcg_const` at `r = [2,2,2]`, `K = 2`, with the concrete
positive weights `exampleWeights`. -/
theorem C4_ndcg_witness : pyNDCG exampleWeights [2, 2, 2] 2 = 1 :=
  C4_ndcg_const exampleWeights [2, 2, 2] 2 2 (by decide) (by norm_num)
    (by norm_num) (by simp) (fun i => by unfold exampleWeights; positivity)

/-! ## Relevance scorer (src/unified_relevance_scorer.py)

Python strings are modelled by `String`; Python `set`s of words by
`Finset String`; float scores and ratios by `ℚ`.  The regex helpers
`_extract_product_names_from_question` and `_extract_price_ranges_from_question`
are not re-implemented: their output is taken as an argument by the scorers
that consume it, so all theorems hold for every possible extraction result. -/

/-- Python's substring test `needle in hay`. -/
def strContains (hay needle : String) : Bool :=
  (List.range (hay.toList.length + 1)).any
    (fun i => needle.toList.isPrefixOf (hay.toList.drop i))

/-- Python's `str.lower()` (character-wise, so that closed terms evaluate by
kernel reduction). -/
def pyLower (s : String) : String :=
  String.mk (s.toList.map Char.toLower)

/-- Python's `str.strip()`: drop leading and trailing whitespace. -/
def pyStrip (s : String) : String :=
  String.mk (((s.toList.dropWhile Char.isWhitespace).reverse.dropWhile
    Char.isWhitespace).reverse)

/-- Python's no-argument `str.split()`: split on whitespace, drop empties. -/
def pySplitWs (s : String) : List String :=
  ((s.toList.splitOnP (fun c => c.isWhitespace)).map String.mk).filter
    (fun w => w ≠ "")

/-- Embeds `UnifiedRelevanceScorer.stop_words` (src/unified_relevance_scorer.py
lines 57-72), transcribed verbatim. -/
def stopWords : List String :=
  ["i", "me", "my", "we", "our", "you", "your", "he", "him", "his", "she", "her",
   "it", "its", "they", "them", "their", "what", "which", "who", "whom", "this",
   "that", "these", "those", "am", "is", "are", "was", "were", "be", "been", "being",
   "have", "has", "had", "having", "do", "does", "did", "doing", "a", "an", "the",
   "and", "but", "if", "or", "because", "as", "until", "while", "of", "at", "by",
   "for", "with", "about", "against", "between", "into", "through", "during",
   "before", "after", "above", "below", "up", "down", "in", "out", "on", "off",
   "over", "under", "again", "further", "then", "once", "here", "there", "when",
   "where", "why", "how", "all", "any", "both", "each", "few", "more", "most",
   "other", "some", "such", "no", "nor", "not", "only", "own", "same", "so",
   "than", "too", "very", "can", "will", "just", "should", "now", "good",
   "things", "compare", "options", "suggestions", "opinion", "considering",
   "buying", "worth", "tell", "heard", "show", "find", "looking", "need"]

/-- Embeds `UnifiedRelevanceScorer.category_mappings` (lines 32-44), in source order. -/
def categoryMappings : List (String × List String) :=
  [("clothing", ["clothing", "apparel", "wear", "garment", "shirt", "jacket",
                 "coat", "sweater", "hoodie", "vest"]),
   ("footwear", ["footwear", "shoes", "boots", "sneakers", "sandals", "shoe", "boot"]),
   ("bike", ["bike", "bicycle", "cycling", "cycle"]),
   ("accessory", ["accessory", "accessories", "gear", "equipment"]),
   ("backpack", ["backpack", "pack", "bag", "rucksack"]),
   ("helmet", ["helmet", "head protection"]),
   ("tent", ["tent", "shelter", "camping"]),
   ("gloves", ["gloves", "glove", "hand protection"]),
   ("shorts_pants", ["shorts", "pants", "trousers", "short", "pant"]),
   ("hat", ["hat", "cap", "beanie"]),
   ("sleeping", ["sleeping", "sleep", "bag"])]

/-- Embeds `UnifiedRelevanceScorer.attribute_keywords` (lines 47-53). -/
def attributeKeywords : List (String × List String) :=
  [("color", ["color", "colour", "black", "white", "red", "blue", "green",
              "yellow", "orange", "purple", "pink", "brown", "gray", "grey"]),
   ("size", ["size", "small", "medium", "large", "xl", "xxl", "s", "m", "l"]),
   ("material", ["material", "cotton", "polyester", "wool", "leather",
                 "synthetic", "fabric", "nylon"]),
   ("style", ["style", "casual", "formal", "sport", "athletic", "outdoor"]),
   ("features", ["waterproof", "breathable", "insulated", "lightweight", "durable"])]

/-- Action of `re.sub` with pattern `[^\w\s]` on a character: keep word
characters and whitespace, blank out everything else (ASCII model of `\w`). -/
def cleanChar (c : Char) : Char :=
  if c.isAlphanum ∨ c = '_' ∨ c.isWhitespace then c else ' '

/-- Embeds `UnifiedRelevanceScorer._extract_meaningful_words` (lines 485-494):
lower-case, strip punctuation, split on whitespace, keep words of length > 2
that are not stop words; result is a set. -/
def extractMeaningfulWords (text : String) : Finset String :=
  ((pySplitWs (String.mk ((pyLower text).toList.map cleanChar))).filter
    (fun w => decide (2 < w.length ∧ w ∉ stopWords))).toFinset

/-- Embeds `UnifiedRelevanceScorer._extract_category_from_text` (lines 174-183):
first category (in `categoryMappings` order) with a keyword occurring as a
substring of the lower-cased text, else `"unknown"`. -/
def extractCategoryFromText (text : String) : String :=
  match categoryMappings.find?
      (fun p => p.2.any (fun kw => strContains (pyLower text) kw)) with
  | some p => p.1
  | none => "unknown"

/-- Embeds `self.category_mappings.get(c, [c])`. -/
def categoryKeywords (c : String) : List String :=
  match categoryMappings.find? (fun p => decide (p.1 = c)) with
  | some p => p.2
  | none => [c]

/-- The `max_product_coverage` loop of `_score_exact_word` (lines 205-213):
over the (regex-extracted) product names, take the best fraction of a name's
words that occur among the result's meaningful words; names whose stripped
length is ≤ 2 are skipped. -/
def maxProductCoverage (productNames : List String) (resultWords : Finset String) : ℚ :=
  productNames.foldl
    (fun acc name =>
      if 2 < (pyStrip name).length then
        let productWords := (pySplitWs (pyLower name)).toFinset
        if productWords.card ≠ 0 then
          max acc (((resultWords ∩ productWords).card : ℚ) / (productWords.card : ℚ))
        else acc
      else acc) 0

/-- Embeds `UnifiedRelevanceScorer._score_exact_word` (lines 185-231).
`productNamesInQuestion` stands for the output of the regex helper
`_extract_product_names_from_question(question_text)`. -/
def scoreExactWord (productNamesInQuestion : List String)
    (questionText resultText : String) : ℕ :=
  let meaningfulQueryWords := extractMeaningfulWords questionText
  let resultWords := extractMeaningfulWords resultText
  if meaningfulQueryWords = ∅ then 0
  else
    let maxCov := maxProductCoverage productNamesInQuestion resultWords
    let queryCov := ((meaningfulQueryWords ∩ resultWords).card : ℚ) /
      (meaningfulQueryWords.card : ℚ)
    if 7/10 ≤ maxCov then 3
    else if 3/10 ≤ maxCov ∧ 3/10 ≤ queryCov then 2
    else if 3/10 ≤ queryCov then 1
    else 0

/-- The `keyword_matches` counter of `_score_category` (lines 233-273): the
number of expected-category keywords occurring in the result text. -/
def keywordMatchCount (expectedCategory resultText : String) : ℕ :=
  (categoryKeywords expectedCategory).countP
    (fun kw => strContains resultText kw)

/-- The `strong_matches` counter of `_score_category`: matched keywords that
are the expected category itself or longer than 4 characters. -/
def strongMatchCount (expectedCategory resultText : String) : ℕ :=
  (categoryKeywords expectedCategory).countP
    (fun kw => strContains resultText kw &&
      (decide (kw = expectedCategory) || decide (4 < kw.length)))

/-- Embeds `UnifiedRelevanceScorer._score_category` (lines 233-273): direct
category equality scores 3; otherwise ≥1 strong and ≥2 keyword hits → 2;
≥1 hit → 1; else 0. -/
def scoreCategory (expectedCategory resultCategory resultText : String) : ℕ :=
  if expectedCategory = resultCategory ∧ expectedCategory ≠ "unknown" then 3
  else if 1 ≤ strongMatchCount expectedCategory resultText ∧
      2 ≤ keywordMatchCount expectedCategory resultText then 2
  else if 1 ≤ keywordMatchCount expectedCategory resultText then 1
  else 0

/-- The shared `category_match` test of `_score_category_attribute` and
`_score_category_price`: direct equality (away from `"unknown"`) or any
expected-category keyword occurring in the result text. -/
def categoryMatchB (expectedCategory resultCategory resultText : String) : Bool :=
  decide (expectedCategory = resultCategory ∧ expectedCategory ≠ "unknown") ||
    (categoryKeywords expectedCategory).any (fun kw => strContains resultText kw)

/-- The expected-attribute loop of `_score_category_attribute` (lines 302-309):
+1 for an attribute whose value occurs in the result text or the (lower-cased)
question text, else +0.5 for an attribute whose name occurs in the result
text.  Attributes are (name, value) pairs, already lower-cased by `.lower()`. -/
def attrMatchedCount (expectedAttributes : List (String × String))
    (resultText questionText : String) : ℚ :=
  expectedAttributes.foldl
    (fun acc attr =>
      let attrName := pyLower attr.1
      let attrValue := pyLower attr.2
      if attrValue ≠ "" ∧ (strContains resultText attrValue ∨
          strContains (pyLower questionText) attrValue) then acc + 1
      else if attrName ≠ "" ∧ strContains resultText attrName then acc + 1/2
      else acc) 0

/-- The attribute-keyword loop of `_score_category_attribute` (lines 311-316):
+0.5 for each keyword occurring in both the question and the result text. -/
def attrKeywordBonus (questionText resultText : String) : ℚ :=
  attributeKeywords.foldl
    (fun acc p =>
      p.2.foldl
        (fun acc2 kw =>
          if strContains (pyLower questionText) kw ∧ strContains resultText kw then
            acc2 + 1/2
          else acc2) acc) 0

/-- Embeds `attr_match_ratio` of `_score_category_attribute` (lines 318-322). -/
def attrMatchRatio (expectedAttributes : List (String × String))
    (resultText questionText : String) : ℚ :=
  let matched := attrMatchedCount expectedAttributes resultText questionText +
    attrKeywordBonus questionText resultText
  if expectedAttributes.length ≠ 0 then matched / (expectedAttributes.length : ℚ)
  else if 0 < matched then 1 else 0

/-- Embeds `UnifiedRelevanceScorer._score_category_attribute` (lines 274-338). -/
def scoreCategoryAttribute (expectedCategory : String)
    (expectedAttributes : List (String × String))
    (resultCategory resultText questionText : String) : ℕ :=
  let catMatch := categoryMatchB expectedCategory resultCategory resultText
  let ratio := attrMatchRatio expectedAttributes resultText questionText
  if catMatch ∧ 4/5 ≤ ratio then 3
  else if catMatch ∧ 3/10 ≤ ratio then 2
  else if 3/10 ≤ ratio then 1
  else 0

/-- One price range extracted from the question text; `hi = none` models the
`float('inf')` upper bound produced for "over $X" patterns. -/
structure PriceRange where
  lo : ℚ
  hi : Option ℚ
  deriving DecidableEq

/-- Embeds `min_price <= result_price <= max_price`. -/
def rangeContains (p : ℚ) (rg : PriceRange) : Bool :=
  decide (rg.lo ≤ p) && (match rg.hi with
    | none => true
    | some hi => decide (p ≤ hi))

/-- Embeds `abs(rp - min)/max(min,1) <= 0.3 or abs(rp - max)/max(max,1) <= 0.3`; with
an infinite upper bound the Python float comparison is `nan <= 0.3 = False`. -/
def rangeLooseNear (p : ℚ) (rg : PriceRange) : Bool :=
  decide (|p - rg.lo| / max rg.lo 1 ≤ 3/10) ||
    (match rg.hi with
      | none => false
      | some hi => decide (|p - hi| / max hi 1 ≤ 3/10))

/-- The price-range loop of `_score_category_price` (lines 364-370): stop at
the first containing range (setting `price_in_range`), accumulating
`price_match` over the ranges examined before it. -/
def priceLoopGo (p : ℚ) (m : Bool) : List PriceRange → Bool × Bool
  | [] => (m, false)
  | rg :: rest =>
    if rangeContains p rg then (m, true)
    else priceLoopGo p (m || rangeLooseNear p rg) rest

/-- Embeds `UnifiedRelevanceScorer._score_category_price` (lines 340-402).
`priceRanges` stands for the output of the regex helper
`_extract_price_ranges_from_question(question_text)`; when it is empty the
±20% / ±50% tolerance bands around the recorded price are used. -/
def scoreCategoryPrice (expectedCategory : String) (expectedPrice : ℚ)
    (priceRanges : List PriceRange)
    (resultCategory : String) (resultPrice : ℚ) (resultText : String) : ℕ :=
  let catMatch := categoryMatchB expectedCategory resultCategory resultText
  let flags :=
    if priceRanges ≠ [] then priceLoopGo resultPrice false priceRanges
    else if 0 < expectedPrice then
      if |resultPrice - expectedPrice| ≤ expectedPrice * (1/5) then (false, true)
      else if |resultPrice - expectedPrice| ≤ expectedPrice * (1/2) then (true, false)
      else (false, false)
    else (false, false)
  if catMatch ∧ flags.2 then 3
  else if flags.2 ∨ (catMatch ∧ flags.1) then 2
  else if catMatch then 1
  else 0

/-- The `quality_attributes` keywords of `_extract_intent_categories` (weight 0.4). -/
def qualityKeywords : List String :=
  ["comfort", "warmth", "durable", "lightweight", "breathable", "waterproof",
   "comfortable", "warm", "strong", "light", "air", "water-resistant"]

/-- The `functional_features` keywords (weight 0.3). -/
def functionalKeywords : List String :=
  ["performance", "support", "stability", "grip", "insulation", "ventilation",
   "protection", "cushion", "flexibility", "shock", "impact"]

/-- The `use_cases` keywords (weight 0.2). -/
def useCaseKeywords : List String :=
  ["outdoor", "hiking", "climbing", "running", "cycling", "sports", "casual",
   "adventure", "camping", "trail", "exercise", "fitness"]

/-- Keywords of one intent bucket found in the lower-cased question text. -/
def bucketMatches (kws : List String) (questionLower : String) : List String :=
  kws.filter (fun kw => strContains questionLower kw)

/-- The `descriptive_terms` of `_extract_intent_categories` (lines 576-586):
meaningful question words not already used by a keyword bucket (all meaningful
words have length ≥ 3). -/
def descriptiveMatches (questionText : String) : Finset String :=
  let ql := pyLower questionText
  (extractMeaningfulWords questionText).filter
    (fun w => w ∉ bucketMatches qualityKeywords ql ∧
      w ∉ bucketMatches functionalKeywords ql ∧
      w ∉ bucketMatches useCaseKeywords ql)

/-- Embeds `UnifiedRelevanceScorer._calculate_description_similarity_score`
(lines 645-661) applied to the intent analysis of the question: weighted sum of
per-bucket hit fractions in the result text, capped at 1 (buckets with no
matches contribute 0). -/
def descriptionSimilarityScore (questionText resultText : String) : ℚ :=
  let ql := pyLower questionText
  let part := fun (ms : List String) (w : ℚ) =>
    if ms ≠ [] then
      ((ms.countP (fun m => strContains resultText m)) : ℚ) / (ms.length : ℚ) * w
    else 0
  let d := descriptiveMatches questionText
  let dPart :=
    if d ≠ ∅ then
      (((d.filter (fun m => strContains resultText m = true)).card) : ℚ) /
        (d.card : ℚ) * (1/10)
    else 0
  min (part (bucketMatches qualityKeywords ql) (2/5) +
       part (bucketMatches functionalKeywords ql) (3/10) +
       part (bucketMatches useCaseKeywords ql) (1/5) + dPart) 1

/-- Embeds `UnifiedRelevanceScorer._calculate_name_similarity_score` (lines 620-631). -/
def nameSimilarityScore (questionText resultName : String) : ℚ :=
  if resultName = "" then 0
  else
    let qw := extractMeaningfulWords questionText
    let rw := extractMeaningfulWords resultName
    if qw = ∅ ∨ rw = ∅ then 0
    else ((qw ∩ rw).card : ℚ) / (qw.card : ℚ)

/-- Embeds `UnifiedRelevanceScorer._calculate_category_similarity_score`
(lines 633-641). -/
def categorySimilarityScore (expectedCategory resultText : String) : ℚ :=
  if expectedCategory = "" ∨ expectedCategory = "unknown" then 0
  else
    let kws := categoryKeywords expectedCategory
    min (((kws.countP (fun kw => strContains resultText kw)) : ℚ) / (kws.length : ℚ)) 1

/-- Embeds `UnifiedRelevanceScorer._score_description` (lines 404-460): adaptive
weighting — rich result text (> 50 characters stripped) uses
description 0.8 / name 0.15 / category 0.05 with thresholds 0.55/0.35/0.15,
else name 0.7 / category 0.3 with thresholds 0.60/0.40/0.20. -/
def scoreDescription (questionText expectedProductName expectedCategory
    resultName resultText : String) : ℕ :=
  let nameScore := nameSimilarityScore questionText resultName
  let categoryScore := categorySimilarityScore expectedCategory resultText
  let descScore := descriptionSimilarityScore questionText resultText
  if 50 < (pyStrip resultText).length then
    let total := descScore * (4/5) + nameScore * (3/20) + categoryScore * (1/20)
    if 11/20 ≤ total then 3
    else if 7/20 ≤ total then 2
    else if 3/20 ≤ total then 1
    else 0
  else
    let total := nameScore * (7/10) + categoryScore * (3/10)
    if 3/5 ≤ total then 3
    else if 2/5 ≤ total then 2
    else if 1/5 ≤ total then 1
    else 0

/-- Embeds `UnifiedRelevanceScorer._check_name_similarity` (lines 663-673). -/
def checkNameSimilarity (expectedName resultName : String) : Bool :=
  if expectedName = "" ∨ resultName = "" then false
  else
    let ew := extractMeaningfulWords expectedName
    let rw := extractMeaningfulWords resultName
    if ew = ∅ then false
    else decide ((1 : ℚ)/2 ≤ ((ew ∩ rw).card : ℚ) / (ew.card : ℚ))

/-- Embeds `UnifiedRelevanceScorer._score_general_relevance` (lines 472-483): the
fallback scorer for unknown question types. -/
def scoreGeneralRelevance (expectedProductName expectedCategory
    resultName resultCategory : String) : ℕ :=
  let nameScore : ℕ := if checkNameSimilarity expectedProductName resultName then 1 else 0
  let categoryScore : ℕ := if expectedCategory = resultCategory then 1 else 0
  if 0 < nameScore ∧ 0 < categoryScore then 2
  else if 0 < nameScore ∨ 0 < categoryScore then 1
  else 0

/-- The recognised question-type tags of `score_result_relevance`. -/
def knownQuestionTypes : List String :=
  ["Exact word", "Category", "Category + Attribute value", "Attribute value",
   "Category + Price range", "Price range", "Description"]

/-- Embeds `UnifiedRelevanceScorer.score_result_relevance` (lines 72-127): lower-case
the question fields, derive the result's category from its text and dispatch on
the stripped question-type tag, falling back to the generic name/category
scorer for unknown tags.  `resultName`/`resultPrice`/`resultText` stand for the
output of `_parse_dataverse_result`/`_parse_agentic_result`;
`productNamesInQuestion` and `priceRanges` stand for the regex extractions.
The whole method is wrapped in `try/except: return 0`, so it is total; the
embedding is a total function by construction. -/
def scoreResultRelevance (questionType questionTextRaw expectedProductNameRaw
    expectedCategoryRaw : String) (expectedPrice : ℚ)
    (expectedAttributes : List (String × String))
    (productNamesInQuestion : List String) (priceRanges : List PriceRange)
    (resultName : String) (resultPrice : ℚ) (resultText : String) : ℕ :=
  let questionText := pyLower questionTextRaw
  let expectedProductName := pyLower expectedProductNameRaw
  let expectedCategory := pyLower expectedCategoryRaw
  let resultCategory := extractCategoryFromText resultText
  let qt := pyStrip questionType
  if qt = "Exact word" then
    scoreExactWord productNamesInQuestion questionText resultText
  else if qt = "Category" then
    scoreCategory expectedCategory resultCategory resultText
  else if qt = "Category + Attribute value" ∨ qt = "Attribute value" then
    scoreCategoryAttribute expectedCategory expectedAttributes resultCategory
      resultText questionText
  else if qt = "Category + Price range" ∨ qt = "Price range" then
    scoreCategoryPrice expectedCategory expectedPrice priceRanges resultCategory
      resultPrice resultText
  else if qt = "Description" then
    scoreDescription questionText expectedProductName expectedCategory
      resultName resultText
  else
    scoreGeneralRelevance expectedProductName expectedCategory resultName
      resultCategory

/-! ## Theorems about the relevance scorer -/

lemma scoreExactWord_le (pn : List String) (q r : String) :
    scoreExactWord pn q r ≤ 3 := by
  simp only [scoreExactWord]
  split_ifs <;> norm_num

lemma scoreCategory_le (ec rc rt : String) : scoreCategory ec rc rt ≤ 3 := by
  simp only [scoreCategory]
  split_ifs <;> norm_num

lemma scoreCategoryAttribute_le (ec : String) (attrs : List (String × String))
    (rc rt qt : String) : scoreCategoryAttribute ec attrs rc rt qt ≤ 3 := by
  simp only [scoreCategoryAttribute]
  split_ifs <;> norm_num

lemma scoreCategoryPrice_le (ec : String) (ep : ℚ) (prs : List PriceRange)
    (rc : String) (rp : ℚ) (rt : String) :
    scoreCategoryPrice ec ep prs rc rp rt ≤ 3 := by
  simp only [scoreCategoryPrice]
  split_ifs <;> norm_num

lemma scoreDescription_le (q epn ec rn rt : String) :
    scoreDescription q epn ec rn rt ≤ 3 := by
  simp only [scoreDescription]
  split_ifs <;> norm_num

lemma scoreGeneralRelevance_le (epn ec rn rc : String) :
    scoreGeneralRelevance epn ec rn rc ≤ 3 := by
  simp only [scoreGeneralRelevance]
  split_ifs <;> norm_num

/-- C5: for every question record — any question-type string, known or unknown
— and every candidate (and every possible regex-extraction result), the
top-level scorer `score_result_relevance` returns a label in `{0,1,2,3}`;
being a total Lean function, the embedding cannot raise (the source wraps the
body in `try/except: return 0`).  Moreover any question-type outside the
recognised tags takes the generic name/category fallback branch. -/
theorem C5_score_range (qt qtext epn ecat : String) (eprice : ℚ)
    (attrs : List (String × String)) (pns : List String)
    (prs : List PriceRange) (rname : String) (rprice : ℚ) (rtext : String) :
    (scoreResultRelevance qt qtext epn ecat eprice attrs pns prs rname rprice
        rtext = 0 ∨
     scoreResultRelevance qt qtext epn ecat eprice attrs pns prs rname rprice
        rtext = 1 ∨
     scoreResultRelevance qt qtext epn ecat eprice attrs pns prs rname rprice
        rtext = 2 ∨
     scoreResultRelevance qt qtext epn ecat eprice attrs pns prs rname rprice
        rtext = 3) ∧
    (pyStrip qt ∉ knownQuestionTypes →
      scoreResultRelevance qt qtext epn ecat eprice attrs pns prs rname rprice
          rtext =
        scoreGeneralRelevance (pyLower epn) (pyLower ecat) rname
          (extractCategoryFromText rtext)) := by
  constructor
  · have h : scoreResultRelevance qt qtext epn ecat eprice attrs pns prs rname
        rprice rtext ≤ 3 := by
      simp only [scoreResultRelevance]
      split_ifs
      · exact scoreExactWord_le _ _ _
      · exact scoreCategory_le _ _ _
      · exact scoreCategoryAttribute_le _ _ _ _ _
      · exact scoreCategoryPrice_le _ _ _ _ _ _
      · exact scoreDescription_le _ _ _ _ _
      · exact scoreGeneralRelevance_le _ _ _ _
    omega
  · intro hqt
    simp only [knownQuestionTypes, List.mem_cons, List.not_mem_nil, or_false,
      not_or] at hqt
    obtain ⟨h1, h2, h3, h4, h5, h6, h7⟩ := hqt
    simp only [scoreResultRelevance]
    rw [if_neg h1, if_neg h2, if_neg (not_or.mpr ⟨h3, h4⟩),
      if_neg (not_or.mpr ⟨h5, h6⟩), if_neg h7]

/-- Witness for `C5_score_range` at a concrete unknown question-type. -/
theorem C5_score_range_witness :
    scoreResultRelevance ("Weird type") ("blue tent") ("tent pro") ("tent") 0
        [] [] [] ("tent pro") 0 ("tent pro") =
      scoreGeneralRelevance (pyLower ("tent pro")) (pyLower ("tent"))
        ("tent pro") (extractCategoryFromText ("tent pro")) ∧
    (scoreResultRelevance ("Weird type") ("blue tent") ("tent pro") ("tent") 0
        [] [] [] ("tent pro") 0 ("tent pro") = 0 ∨
     scoreResultRelevance ("Weird type") ("blue tent") ("tent pro") ("tent") 0
        [] [] [] ("tent pro") 0 ("tent pro") = 1 ∨
     scoreResultRelevance ("Weird type") ("blue tent") ("tent pro") ("tent") 0
        [] [] [] ("tent pro") 0 ("tent pro") = 2 ∨
     scoreResultRelevance ("Weird type") ("blue tent") ("tent pro") ("tent") 0
        [] [] [] ("tent pro") 0 ("tent pro") = 3) :=
  ⟨(C5_score_range ("Weird type") ("blue tent") ("tent pro") ("tent") 0 [] []
      [] ("tent pro") 0 ("tent pro")).2 (by decide),
   (C5_score_range ("Weird type") ("blue tent") ("tent pro") ("tent") 0 [] []
      [] ("tent pro") 0 ("tent pro")).1⟩

/-- An intent whose `scoreCategory` is `0` has no direct category match and no
keyword hit, so the shared `category_match` flag is `false`. -/
lemma categoryMatchB_eq_false_of_scoreCategory_eq_zero (ec rc rt : String)
    (h : scoreCategory ec rc rt = 0) : categoryMatchB ec rc rt = false := by
  by_cases hd : ec = rc ∧ ec ≠ "unknown"
  · rw [scoreCategory, if_pos hd] at h
    omega
  · rw [scoreCategory, if_neg hd] at h
    have hkm : keywordMatchCount ec rt = 0 := by
      split_ifs at h <;> omega
    have hall : ∀ kw ∈ categoryKeywords ec, ¬(strContains rt kw = true) :=
      List.countP_eq_zero.mp hkm
    have hany : (categoryKeywords ec).any (fun kw => strContains rt kw)
        = false := by
      cases hb : (categoryKeywords ec).any (fun kw => strContains rt kw) with
      | false => rfl
      | true =>
        obtain ⟨kw, hkw, hkw2⟩ := List.any_eq_true.mp hb
        exact absurd hkw2 (hall kw hkw)
    simp [categoryMatchB, hd, hany]

/-- C2 (counterexample): a CategoryAttribute intent with expected category
"clothing" scored against the candidate text "red widget" (category score 0,
no clothing keyword present) still receives label 1, because the candidate
contains the expected attribute value "red": the attribute-coverage branch is
reached even though the Category score is 0. -/
theorem C2_counterexample :
    scoreCategory ("clothing") (extractCategoryFromText ("red widget"))
        ("red widget") = 0 ∧
    scoreResultRelevance ("Category + Attribute value") ("red one?") ("")
        ("clothing") 0 [("color", "red")] [] [] ("") 0 ("red widget") = 1 := by
  refine ⟨by decide, ?_⟩
  simp only [scoreResultRelevance]
  rw [if_neg (by decide), if_neg (by decide), if_pos (by decide)]
  rw [show pyLower ("clothing") = "clothing" from by decide,
    show pyLower ("red one?") = "red one?" from by decide]
  have hcm : categoryMatchB ("clothing")
      (extractCategoryFromText ("red widget")) ("red widget") = false := by
    decide
  have hr : attrMatchRatio [("color", "red")] ("red widget") ("red one?")
      = 3/2 := by
    simp +decide [attrMatchRatio, attrMatchedCount, attrKeywordBonus,
      attributeKeywords]
    norm_num
  simp only [scoreCategoryAttribute, hcm, hr]
  norm_num

/-- C2 (amended): when the Category score of a candidate is `0`, the
CategoryAttribute scorer does not necessarily return `0`: the category-gated
branches are skipped, and the result is `1` when the attribute-match ratio is
at least `0.3` and `0` otherwise. -/
theorem C2_category_zero_attr (ec : String)
    (attrs : List (String × String)) (rc rt qt : String)
    (h : scoreCategory ec rc rt = 0) :
    scoreCategoryAttribute ec attrs rc rt qt =
      if (3 : ℚ)/10 ≤ attrMatchRatio attrs rt qt then 1 else 0 := by
  have hcm := categoryMatchB_eq_false_of_scoreCategory_eq_zero ec rc rt h
  simp only [scoreCategoryAttribute, hcm]
  simp

/-- Witness for `C2_category_zero_attr` at the concrete zero-category-score
input of the counterexample. -/
theorem C2_category_zero_attr_witness :
    scoreCategoryAttribute ("clothing") [("color", "red")]
        (extractCategoryFromText ("red widget")) ("red widget") ("red one?") =
      if (3 : ℚ)/10 ≤ attrMatchRatio [("color", "red")] ("red widget")
          ("red one?") then 1 else 0 :=
  C2_category_zero_attr ("clothing") [("color", "red")]
    (extractCategoryFromText ("red widget")) ("red widget") ("red one?")
    (by decide)

/-- C10: for every ExactWord intent whose question text yields no meaningful
tokens (every word a stop word or ≤ 2 characters), the scorer returns 0 for
every candidate and every regex-extracted product-name list: the
empty-meaningful-words guard fires before the coverage thresholds. -/
theorem C10_empty_meaningful_zero (pns : List String) (qtext rtext : String)
    (h : extractMeaningfulWords qtext = ∅) :
    scoreExactWord pns qtext rtext = 0 := by
  simp only [scoreExactWord]
  rw [if_pos h]

/-- Witness for `C10_empty_meaningful_zero`: the question "is it of me?" has
no meaningful tokens, and the candidate "alpine jacket deluxe" fully contains
the extracted product name "alpine jacket" (coverage 1 ≥ 0.7), yet the score
is 0. -/
theorem C10_empty_meaningful_witness :
    extractMeaningfulWords ("is it of me?") = ∅ ∧
    (7 : ℚ)/10 ≤ maxProductCoverage [("alpine jacket")]
      (extractMeaningfulWords ("alpine jacket deluxe")) ∧
    scoreExactWord [("alpine jacket")] ("is it of me?")
      ("alpine jacket deluxe") = 0 := by
  refine ⟨by decide, ?_, C10_empty_meaningful_zero [("alpine jacket")]
    ("is it of me?") ("alpine jacket deluxe") (by decide)⟩
  have h1 : ((pySplitWs (pyLower ("alpine jacket"))).toFinset).card = 2 := by
    decide
  have h2 : ((extractMeaningfulWords ("alpine jacket deluxe")) ∩
      (pySplitWs (pyLower ("alpine jacket"))).toFinset).card = 2 := by decide
  unfold maxProductCoverage
  simp only [List.foldl_cons, List.foldl_nil]
  rw [if_pos (by decide)]
  simp only [h1, h2]
  rw [if_pos (by decide)]
  norm_num

/-! ## Batch/resume controller (src/smart_batch_runner.py)

The file-system interaction of `SmartBatchProcessor` is modelled by an
explicit store mapping file names to the `completed_questions` count recorded
in them. -/

/-- Embeds `SmartBatchProcessor.load_checkpoint` (src/smart_batch_runner.py
lines 31-41): if the checkpoint file exists return its recorded
`completed_questions`, else the default `0` (parse failures also fall back to
the default). -/
def loadCheckpoint (store : List (String × ℕ)) (file : String) : ℕ :=
  (store.lookup file).getD 0

/-- The checkpoint file name `f"checkpoint_{timestamp}.json"` built in
`process_all_questions` (line 97) from the *current run's* start timestamp. -/
def checkpointFileName (timestamp : String) : String :=
  "checkpoint_" ++ timestamp ++ ".json"

/-- The resume offset of `process_all_questions` (lines 100-102):
`checkpoint["completed_questions"]` of the checkpoint file named after the
current run's timestamp. -/
def startIndex (store : List (String × ℕ)) (timestamp : String) : ℕ :=
  loadCheckpoint store (checkpointFileName timestamp)

/-- The queries a run issues: `remaining_questions = questions[start_index:]`
(line 113), processed batch by batch (the batches partition this list). -/
def issuedQuestions (questions : List α) (store : List (String × ℕ))
    (timestamp : String) : List α :=
  questions.drop (startIndex store timestamp)

/-- The Progress Recorder's final completed count: `progress_tracker.completed`
is initialised to `start_index` (line 110) and incremented once per processed
question by `process_single_question` → `ProgressTracker.update`. -/
def finalCompleted (questions : List α) (store : List (String × ℕ))
    (timestamp : String) : ℕ :=
  startIndex store timestamp + (issuedQuestions questions store timestamp).length

/-- C6 (code evaluated at the failing input): a previous run recorded a
checkpoint with 400/1000 completed under its own timestamp; a restarted run
derives the checkpoint file name from its *new* start timestamp, finds no
checkpoint, resumes at index 0 and re-issues all 1000 queries — resume fires
only in the degenerate case where the restart's timestamp coincides with the
recorded one, in which case it would process the remaining 600 and report a
final completed count of 1000. -/
theorem C6_checkpoint_restart_bug :
    startIndex [(checkpointFileName ("20250101_120000"), 400)]
        ("20250102_090000") = 0 ∧
    (issuedQuestions (List.range 1000)
        [(checkpointFileName ("20250101_120000"), 400)]
        ("20250102_090000")).length = 1000 ∧
    startIndex [(checkpointFileName ("20250101_120000"), 400)]
        ("20250101_120000") = 400 ∧
    (issuedQuestions (List.range 1000)
        [(checkpointFileName ("20250101_120000"), 400)]
        ("20250101_120000")).length = 600 ∧
    finalCompleted (List.range 1000)
        [(checkpointFileName ("20250101_120000"), 400)]
        ("20250101_120000") = 1000 := by
  have h1 : startIndex [(checkpointFileName ("20250101_120000"), 400)]
      ("20250102_090000") = 0 := by decide
  have h2 : startIndex [(checkpointFileName ("20250101_120000"), 400)]
      ("20250101_120000") = 400 := by decide
  refine ⟨h1, ?_, h2, ?_, ?_⟩
  · simp [issuedQuestions, h1]
  · simp [issuedQuestions, h2]
  · simp [finalCompleted, issuedQuestions, h2]

/-! ## Resilient query client (src/multi_thread_runner.py, `DataverseSearchClient.search`) -/

/-- The `queryResult.result` field of a decoded response body: a list (whose
length is the result count) or some non-list value. -/
inductive ResultField
  | list (n : ℕ)
  | nonList
  deriving DecidableEq

/-- The body of an HTTP response that passed `raise_for_status`: either the
JSON decode fails, or a dict whose optional `queryResult` may hold an optional
`result` field (the `Option` layers model the `in`/truthiness/`is not None`
checks of lines 896-903). -/
inductive JsonBody
  | malformed
  | dict (queryResult : Option (Option ResultField))
  deriving DecidableEq

/-- The terminal outcome of one `requests.post` attempt inside `search`
(lines 878-1003): success (2xx), timeout, connection failure, an
`HTTPError` with its status, or any other exception with its type name and
optional attached status. -/
inductive AttemptOutcome
  | ok (status : ℕ) (body : JsonBody)
  | timeout
  | connectionFailure
  | httpError (status : ℕ)
  | otherFailure (name : String) (status : Option ℕ)

/-- The uniform result-record shape populated by every branch of `search`:
success flag, optional status code, result count, and the error type present
exactly on failure. -/
structure RawResult where
  success : Bool
  status_code : Option ℕ
  result_count : ℕ
  error_type : Option String
  deriving DecidableEq

/-- The `result_count` computation of `search` (lines 895-903): the length of
`response_data["queryResult"]["result"]` when every nested check passes and the
value is a list, else 0. -/
def extractResultCount : JsonBody → ℕ
  | .dict (some (some (.list n))) => n
  | _ => 0

/-- The retry loop `for attempt in range(retry_count + 1)` of `search`
(lines 878-1003), with `fuel` the number of remaining iterations and `i` the
current attempt index.  `attempts i` is the outcome of the i-th
`requests.post`; `tokenValid i` and `refreshOk i` are the results of
`_is_token_valid()` / `refresh_token_if_needed()` in the auth-error handler.
The after-loop fallback (lines 1005-1016) is the `fuel = 0` case. -/
def searchAttempts (attempts : ℕ → AttemptOutcome)
    (tokenValid refreshOk : ℕ → Bool) (retryCount : ℕ) :
    ℕ → ℕ → RawResult
  | 0, _ => ⟨false, none, 0, some ("MaxRetriesExceededError")⟩
  | fuel + 1, i =>
    match attempts i with
    | .ok st body =>
      match body with
      | .malformed => ⟨false, some st, 0, some ("JSONDecodeError")⟩
      | .dict qr => ⟨true, some st, extractResultCount (.dict qr), none⟩
    | .timeout => ⟨false, none, 0, some ("TimeoutError")⟩
    | .connectionFailure => ⟨false, none, 0, some ("ConnectionError")⟩
    | .httpError st =>
      if (st = 401 ∨ st = 403) ∧ i < retryCount then
        if ¬ tokenValid i ∧ ¬ refreshOk i then
          ⟨false, some st, 0, some ("TokenExpiredError")⟩
        else searchAttempts attempts tokenValid refreshOk retryCount fuel (i + 1)
      else ⟨false, some st, 0, some ("HTTPError")⟩
    | .otherFailure name st => ⟨false, st, 0, some name⟩

/-- Embeds `DataverseSearchClient.search` (lines 839-1016): the proactive
token check (failure short-circuits with a `TokenRefreshError` record), then
the retry loop. -/
def search (proactiveOk : Bool) (attempts : ℕ → AttemptOutcome)
    (tokenValid refreshOk : ℕ → Bool) (retryCount : ℕ) : RawResult :=
  if ¬ proactiveOk then ⟨false, none, 0, some ("TokenRefreshError")⟩
  else searchAttempts attempts tokenValid refreshOk retryCount (retryCount + 1) 0

lemma searchAttempts_error_iff_failure (attempts : ℕ → AttemptOutcome)
    (tokenValid refreshOk : ℕ → Bool) (retryCount : ℕ) :
    ∀ fuel i, (searchAttempts attempts tokenValid refreshOk retryCount fuel
        i).error_type.isSome =
      !(searchAttempts attempts tokenValid refreshOk retryCount fuel
        i).success := by
  intro fuel
  induction fuel with
  | zero => intro i; rfl
  | succ m ih =>
    intro i
    unfold searchAttempts
    cases h : attempts i with
    | ok st body => cases body <;> rfl
    | timeout => rfl
    | connectionFailure => rfl
    | httpError st =>
      dsimp only
      by_cases hc : (st = 401 ∨ st = 403) ∧ i < retryCount
      · rw [if_pos hc]
        by_cases ht : ¬ tokenValid i = true ∧ ¬ refreshOk i = true
        · rw [if_pos ht]
          rfl
        · rw [if_neg ht]
          exact ih (i + 1)
      · rw [if_neg hc]
        rfl
    | otherFailure name st => rfl

/-- C7: for every query outcome sequence — success, timeout, connection
failure, HTTP error status (including the auth-retry path), malformed JSON
body, or any other exception — and every token-state evolution, `search`
returns a uniformly shaped `RawResult` (success flag, status-code field,
result count, error type); the error type is populated exactly when the
success flag is false.  The embedding is a total function, so no branch can
propagate an exception to the calling worker. -/
theorem C7_search_uniform_shape (proactiveOk : Bool)
    (attempts : ℕ → AttemptOutcome) (tokenValid refreshOk : ℕ → Bool)
    (retryCount : ℕ) :
    (search proactiveOk attempts tokenValid refreshOk
        retryCount).error_type.isSome =
      !(search proactiveOk attempts tokenValid refreshOk
        retryCount).success := by
  unfold search
  split_ifs
  all_goals first
    | rfl
    | exact searchAttempts_error_iff_failure attempts tokenValid refreshOk
        retryCount (retryCount + 1) 0

/-! ## Progress recorder finalization (src/multi_thread_runner.py, `ProgressTracker`) -/

/-- The recorder state relevant to finalization: the configured output file,
the `finalized` flag, the write-effect counters (checkpoint and consolidated
report writes), and the aggregate counters. -/
structure TrackerState where
  output_file : Option String
  finalized : Bool
  checkpointWrites : ℕ
  finalWrites : ℕ
  completed : ℕ
  successful : ℕ
  failed : ℕ
  deriving DecidableEq

/-- Embeds `ProgressTracker.finalize_output` (lines 284-356): return
immediately when no output file is configured or `finalized` is already set;
otherwise set `finalized`, write a final checkpoint and write the consolidated
report once. -/
def finalizeOutput (s : TrackerState) : TrackerState :=
  if s.output_file = none ∨ s.finalized then s
  else { s with
    finalized := true
    checkpointWrites := s.checkpointWrites + 1
    finalWrites := s.finalWrites + 1 }

/-- C8: finalization is idempotent and executes at most once: a second call to
`finalize_output` — from the shutdown handler, the exit hook or normal
completion — is the identity on the recorder state (so it writes nothing and
mutates nothing), and a single call writes the consolidated report at most
once. -/
theorem C8_finalize_idempotent (s : TrackerState) :
    finalizeOutput (finalizeOutput s) = finalizeOutput s ∧
    (finalizeOutput (finalizeOutput s)).finalWrites =
      (finalizeOutput s).finalWrites ∧
    (finalizeOutput s).finalWrites ≤ s.finalWrites + 1 := by
  by_cases h : s.output_file = none ∨ s.finalized
  · refine ⟨?_, ?_, ?_⟩ <;> simp [finalizeOutput, h]
  · have hfin : finalizeOutput s = { s with
        finalized := true
        checkpointWrites := s.checkpointWrites + 1
        finalWrites := s.finalWrites + 1 } := by
      rw [finalizeOutput, if_neg h]
    have hsecond : finalizeOutput (finalizeOutput s) = finalizeOutput s := by
      rw [hfin, finalizeOutput, if_pos (Or.inr rfl)]
    exact ⟨hsecond, by rw [hsecond], by rw [hfin]⟩

/-! ## Credential refresh path (src/multi_thread_runner.py, token management)

`self._token_lock` is a `threading.Lock()` (line 595), which is *not*
reentrant: a thread that acquires it while already holding it blocks forever.
The lock-operation traces below record, in program order, the acquisitions and
releases each source method attempts on `_token_lock`; everything else the
methods do is irrelevant to the serialization claim. -/

/-- One lock operation on `_token_lock`. -/
inductive LockEv
  | acq
  | rel
  deriving DecidableEq

/-- Lock trace of `_reload_token_from_file` (lines 729-742):
`with self._token_lock: ...`. -/
def reloadTokenTrace : List LockEv := [.acq, .rel]

/-- Lock trace of `_save_token` (lines 712-727): `with self._token_lock: ...`. -/
def saveTokenTrace : List LockEv := [.acq, .rel]

/-- Lock trace of `_refresh_token_automatic` (lines 744-772): the silent
token-acquisition network call takes no lock; on success the new token is
stored via `_save_token`. -/
def refreshAutomaticTrace (acquireOk : Bool) : List LockEv :=
  if acquireOk then saveTokenTrace else []

/-- Lock trace of `refresh_token_if_needed` (lines 821-837): nothing when the
token is valid; otherwise `_reload_token_from_file`, and unless the reloaded
token fixes validity, `_refresh_token_automatic`. -/
def refreshTokenIfNeededTrace (tokenValid reloadFixed acquireOk : Bool) :
    List LockEv :=
  if tokenValid then []
  else reloadTokenTrace ++
    (if reloadFixed then [] else refreshAutomaticTrace acquireOk)

/-- Lock trace of `_check_and_refresh_token_if_needed` (lines 805-819):
nothing before the check interval elapses; otherwise acquire `_token_lock` and,
while holding it, call `refresh_token_if_needed` when the token is invalid. -/
def checkAndRefreshTrace (intervalElapsed tokenValid reloadFixed acquireOk :
    Bool) : List LockEv :=
  if ¬ intervalElapsed then []
  else [.acq] ++
    (if ¬ tokenValid then
      refreshTokenIfNeededTrace tokenValid reloadFixed acquireOk
    else []) ++ [.rel]

/-- Whether a trace ever acquires the (non-reentrant) lock while the same
thread already holds it — the point at which a `threading.Lock` blocks its
own holder forever. -/
def hasNestedAcquire (held : ℕ) : List LockEv → Bool
  | [] => false
  | .acq :: t => if 0 < held then true else hasNestedAcquire (held + 1) t
  | .rel :: t => hasNestedAcquire (held - 1) t

/-- C9 (code evaluated at the failing input): whenever the proactive check
runs (interval elapsed) and finds the shared token invalid — the exact
situation in which a refresh is triggered — the calling thread re-acquires the
non-reentrant `_token_lock` inside `_reload_token_from_file` while already
holding it, and self-deadlocks, for every outcome of the reload and of the
silent refresh; no refresh call can complete.  When the token is still valid
the path is deadlock-free, confirming the defect is specific to the refresh
path. -/
theorem C9_refresh_self_deadlock :
    (∀ reloadFixed acquireOk : Bool,
      hasNestedAcquire 0
        (checkAndRefreshTrace true false reloadFixed acquireOk) = true) ∧
    (∀ reloadFixed acquireOk : Bool,
      hasNestedAcquire 0
        (checkAndRefreshTrace true true reloadFixed acquireOk) = false) := by
  decide

end RetailEval
